import Mathlib

/-!
Verification development for the Viha return-gifts conversational bot
(`python_service/complete_bot.py`).  The field extractor, requirement
accumulator, timeline resolver, product-relevance scoring and the dialogue
controller's routing nodes are embedded shallowly: Python strings become
`List Char`, the regular expressions used by the extractor are realised as
dedicated scanning functions that reproduce the leftmost-match and
greedy-with-backtracking semantics of each concrete pattern, and each
LangGraph node becomes a pure function on an explicit conversation-state
record.
-/

/-- Python strings are modelled as lists of characters. -/
abbrev Str := List Char

/-- Python's `\s` class (whitespace) for the `re` module on ASCII input. -/
def isSpaceC (c : Char) : Bool :=
  c = ' ' || c = '\t' || c = '\n' || c = '\r' || c = '\x0b' || c = '\x0c'

/-- Python's `\w` class (word character) on ASCII input. -/
def isWordC (c : Char) : Bool :=
  c.isAlphanum || c = '_'

/-- Python's `str.lower()` on ASCII input. -/
def toLowerList (s : Str) : Str := s.map Char.toLower

/-- Python's `str.strip()`: drop whitespace from both ends. -/
def stripC (s : Str) : Str :=
  ((s.dropWhile isSpaceC).reverse.dropWhile isSpaceC).reverse

/-- Python's `str.isdigit()` on ASCII input: nonempty and all digits. -/
def pyIsDigit (s : Str) : Bool :=
  !s.isEmpty && s.all Char.isDigit

/-- Python's `int(...)` on a string of decimal digits. -/
def digitsToNat (s : Str) : Nat :=
  s.foldl (fun a c => a * 10 + (c.toNat - 48)) 0

/-- Does the first list occur at the head of the second one? -/
def isPre : Str → Str → Bool
  | [], _ => true
  | _ :: _, [] => false
  | a :: as, b :: bs => a == b && isPre as bs

/-- Python's substring test `needle in hay`. -/
def containsSub (n : Str) : Str → Bool
  | [] => isPre n []
  | c :: t => isPre n (c :: t) || containsSub n t

/-- Python's `str.split()` (split on whitespace runs, dropping empties). -/
def splitWsAux (cur : Str) : Str → List Str
  | [] => if cur.isEmpty then [] else [cur.reverse]
  | c :: t =>
    if isSpaceC c then
      if cur.isEmpty then splitWsAux [] t else cur.reverse :: splitWsAux [] t
    else splitWsAux (c :: cur) t

/-- Python's `str.split()` on a whole string. -/
def splitWs (s : Str) : List Str := splitWsAux [] s

/-- Concatenate a list of lists. -/
def concatAll : List (List α) → List α
  | [] => []
  | l :: ls => l ++ concatAll ls

/-- First `some` in a list of options (models ordered alternation attempts). -/
def firstSome : List (Option α) → Option α
  | [] => none
  | some a :: _ => some a
  | none :: t => firstSome t

/-!
`re.findall(r'\b(\d+)\b', message)`: maximal digit runs whose neighbours
(if any) are not word characters.  `prevW` records whether the previously
seen character was a word character, `cur` is the reversed current digit
run and `ok` whether the run started at a word boundary.
-/

/-- Scanner for `\b(\d+)\b` over the raw message. -/
def numsAux : Bool → Str → Bool → Str → List Str
  | _, cur, ok, [] => if ok && !cur.isEmpty then [cur.reverse] else []
  | prevW, cur, ok, c :: rest =>
    if c.isDigit then
      if cur.isEmpty then numsAux true [c] (!prevW) rest
      else numsAux true (c :: cur) ok rest
    else
      if ok && !cur.isEmpty && !isWordC c then
        cur.reverse :: numsAux (isWordC c) [] false rest
      else
        numsAux (isWordC c) [] false rest

/-- All numeric tokens of the message, as in `re.findall(r'\b(\d+)\b', message)`. -/
def findAllNumbers (msg : Str) : List Str := numsAux false [] false msg

/-- The `timeline_map` keyword-to-code table, in Python dict insertion order. -/
def timelineMap : List (Str × Str) :=
  [ (("asap").data, ("asap").data), (("urgent").data, ("asap").data),
    (("immediately").data, ("asap").data), (("today").data, ("today").data),
    (("tomorrow").data, ("tomorrow").data), (("next week").data, ("next_week").data),
    (("this week").data, ("this_week").data), (("2 weeks").data, ("two_weeks").data),
    (("month").data, ("one_month").data) ]

/-- First timeline keyword contained in the lowercased message, if any. -/
def timelineKeyword (low : Str) : Option Str :=
  (timelineMap.find? (fun e => containsSub e.1 low)).map (fun e => e.2)

/-- The twelve month-name alternatives of the date patterns, in order. -/
def monthsL : List Str :=
  [ ("jan").data, ("feb").data, ("mar").data, ("apr").data, ("may").data,
    ("jun").data, ("jul").data, ("aug").data, ("sep").data, ("oct").data,
    ("nov").data, ("dec").data ]

/-- Which month alternative (all length 3) matches at the head of `s`. -/
def matchMonthAt (s : Str) : Option Str :=
  monthsL.find? (fun m => isPre m s)

/-- A date-pattern match: (consumed length, (matched text, numeric groups)). -/
abbrev DMatch := Nat × (Str × List Str)

/-- One backtracking attempt of `\w*\s*(\d{1,2})` after the month name, with
`\w*` consuming exactly `w` characters. -/
def p1Check (s1 : Str) (w : Nat) : Option (Nat × Str) :=
  let t := s1.drop w
  let sp := t.takeWhile isSpaceC
  let ds := ((t.drop sp.length).takeWhile Char.isDigit).take 2
  if !ds.isEmpty then some (w + sp.length + ds.length, ds) else none

/-- Greedy `\w*` with backtracking: try `w` from the maximum down to zero. -/
def p1TryW (s1 : Str) : Nat → Option (Nat × Str)
  | 0 => p1Check s1 0
  | w + 1 =>
    match p1Check s1 (w + 1) with
    | some r => some r
    | none => p1TryW s1 w

/-- Match of `(jan|...|dec)\w*\s*(\d{1,2})` anchored at the head of `s`. -/
def matchP1 (s : Str) : Option DMatch :=
  match matchMonthAt s with
  | none => none
  | some _ =>
    let s1 := s.drop 3
    match p1TryW s1 (s1.takeWhile isWordC).length with
    | some (len1, ds) => some (3 + len1, (s.take (3 + len1), [ds]))
    | none => none

/-- One attempt of `(\d{1,2})\s*(month)` with the digit group of length `ln`. -/
def p2TryLen (s : Str) (ln : Nat) : Option DMatch :=
  let d := s.take ln
  if d.length = ln && d.all Char.isDigit then
    let t := s.drop ln
    let sp := t.takeWhile isSpaceC
    match matchMonthAt (t.drop sp.length) with
    | some _ => some (ln + sp.length + 3, (s.take (ln + sp.length + 3), [d]))
    | none => none
  else none

/-- Match of `(\d{1,2})\s*(jan|...|dec)` anchored at the head of `s`. -/
def matchP2 (s : Str) : Option DMatch :=
  match p2TryLen s 2 with
  | some r => some r
  | none => p2TryLen s 1

/-- The separator class `[/\-.]` of the numeric date patterns. -/
def sepC (c : Char) : Bool := c = '/' || c = '-' || c = '.'

/-- One attempt of `(\d{1,2})[/\-.](\d{1,2})[/\-.](\d{2,4})` with fixed group lengths. -/
def p3Try (s : Str) (l1 l2 l3 : Nat) : Option DMatch :=
  let d1 := s.take l1
  if d1.length = l1 && d1.all Char.isDigit then
    match s.drop l1 with
    | c1 :: r1 =>
      if sepC c1 then
        let d2 := r1.take l2
        if d2.length = l2 && d2.all Char.isDigit then
          match r1.drop l2 with
          | c2 :: r2 =>
            if sepC c2 then
              let d3 := r2.take l3
              if d3.length = l3 && d3.all Char.isDigit then
                some (l1 + 1 + l2 + 1 + l3, (s.take (l1 + 1 + l2 + 1 + l3), [d1, d2, d3]))
              else none
            else none
          | [] => none
        else none
      else none
    | [] => none
  else none

/-- Match of the full numeric date pattern, group lengths tried in the
backtracking order of greedy `\d{1,2}`, `\d{1,2}`, `\d{2,4}`. -/
def matchP3 (s : Str) : Option DMatch :=
  firstSome
    [ p3Try s 2 2 4, p3Try s 2 2 3, p3Try s 2 2 2,
      p3Try s 2 1 4, p3Try s 2 1 3, p3Try s 2 1 2,
      p3Try s 1 2 4, p3Try s 1 2 3, p3Try s 1 2 2,
      p3Try s 1 1 4, p3Try s 1 1 3, p3Try s 1 1 2 ]

/-- One attempt of `(\d{1,2})[/\-.](\d{1,2})` with fixed group lengths. -/
def p4Try (s : Str) (l1 l2 : Nat) : Option DMatch :=
  let d1 := s.take l1
  if d1.length = l1 && d1.all Char.isDigit then
    match s.drop l1 with
    | c1 :: r1 =>
      if sepC c1 then
        let d2 := r1.take l2
        if d2.length = l2 && d2.all Char.isDigit then
          some (l1 + 1 + l2, (s.take (l1 + 1 + l2), [d1, d2]))
        else none
      else none
    | [] => none
  else none

/-- Match of the short numeric date pattern `(\d{1,2})[/\-.](\d{1,2})`. -/
def matchP4 (s : Str) : Option DMatch :=
  firstSome [p4Try s 2 2, p4Try s 2 1, p4Try s 1 2, p4Try s 1 1]

/-- `re.finditer`: scan positions left to right, skipping over each match
(non-overlapping); `fuel` bounds the recursion by the string length. -/
def scanIter (matchAt : Str → Option (Nat × α)) : Nat → Str → List α
  | 0, _ => []
  | _ + 1, [] => []
  | fuel + 1, c :: t =>
    match matchAt (c :: t) with
    | some (len, a) => a :: scanIter matchAt fuel ((c :: t).drop (max len 1))
    | none => scanIter matchAt fuel t

/-- All matches of an anchored matcher over a string. -/
def scanAll (matchAt : Str → Option (Nat × α)) (s : Str) : List α :=
  scanIter matchAt (s.length + 1) s

/-- `re.search`: the first (leftmost) match of an anchored matcher. -/
def searchFirst (matchAt : Str → Option α) : Str → Option α
  | [] => none
  | c :: t =>
    match matchAt (c :: t) with
    | some a => some a
    | none => searchFirst matchAt t

/-- All matches of the four `date_patterns`, in pattern order then text order,
over the lowercased message (`re.finditer(pattern, msg_lower)`). -/
def dateMatches (low : Str) : List (Str × List Str) :=
  scanAll matchP1 low ++ scanAll matchP2 low ++ scanAll matchP3 low ++ scanAll matchP4 low

/-- The `date_numbers` set: every numeric group of every date match. -/
def dateNums (low : Str) : List Str :=
  concatAll ((dateMatches low).map (fun m => m.2))

/-- Lowercased form of a message, as `msg_lower = message.lower()`. -/
def msgLower (msg : Str) : Str := toLowerList msg

/-- The timeline value after steps 1: keyword table first, then each date
match overwrites it, so the last date match (if any) wins. -/
def extractTimeline (msg : Str) : Option Str :=
  match (dateMatches (msgLower msg)).getLast? with
  | some m => some m.1
  | none => timelineKeyword (msgLower msg)

/-- Quantity unit alternatives of `(\d+)\s*(?:pieces|pcs|piece|family|families|people)`. -/
def qtyUnits : List Str :=
  [ ("pieces").data, ("pcs").data, ("piece").data,
    ("family").data, ("families").data, ("people").data ]

/-- Greedy `(\d+)` with backtracking, followed by `\s*` and a suffix accepted
by `unitOk`; `k` counts the digits currently taken by the group. -/
def numThenTry (unitOk : Str → Bool) (s : Str) : Nat → Option Str
  | 0 => none
  | k + 1 =>
    let d := s.take (k + 1)
    let attempt :=
      if d.length = k + 1 && d.all Char.isDigit then
        let t := s.drop (k + 1)
        if unitOk (t.drop (t.takeWhile isSpaceC).length) then some d else none
      else none
    match attempt with
    | some r => some r
    | none => numThenTry unitOk s k

/-- Anchored match of a `(\d+)\s*UNIT` pattern, returning the number. -/
def numThenAt (unitOk : Str → Bool) (s : Str) : Option Nat :=
  (numThenTry unitOk s (s.takeWhile Char.isDigit).length).map digitsToNat

/-- Anchored match of `KW\s*:?\s*(\d+)` for a keyword alternation. -/
def kwColonNumAt (kws : List Str) (s : Str) : Option Nat :=
  match kws.find? (fun k => isPre k s) with
  | none => none
  | some k =>
    let t := s.drop k.length
    let t1 := t.drop (t.takeWhile isSpaceC).length
    let t2 := match t1 with
      | ':' :: r => r
      | _ => t1
    let d := (t2.dropWhile isSpaceC).takeWhile Char.isDigit
    if d.isEmpty then none else some (digitsToNat d)

/-- Keyword alternatives of the second quantity pattern. -/
def qtyKws : List Str :=
  [ ("quantity").data, ("qty").data, ("need").data, ("want").data, ("for").data ]

/-- Step 2 of the extractor: the keyword-anchored quantity patterns, first
pattern and leftmost match winning (`re.search` per pattern, in order). -/
def qtyMatch (low : Str) : Option Nat :=
  match searchFirst (numThenAt (fun t => (qtyUnits.find? (fun u => isPre u t)).isSome)) low with
  | some n => some n
  | none => searchFirst (kwColonNumAt qtyKws) low

/-- Unit alternation `(?:rupees|rs|₹|per\s*piece)` of the second budget pattern. -/
def isBudgetUnit (t : Str) : Bool :=
  isPre (("rupees").data) t || isPre (("rs").data) t || isPre ['₹'] t ||
    (isPre (("per").data) t && isPre (("piece").data) ((t.drop 3).dropWhile isSpaceC))

/-- Suffix test for `rs\b`: the literal rs followed by a non-word character
or the end of the string. -/
def rsBoundary (t : Str) : Bool :=
  match t with
  | 'r' :: 's' :: rest =>
    match rest with
    | [] => true
    | c :: _ => !isWordC c
  | _ => false

/-- Anchored match of `₹\s*(\d+)`. -/
def rupeeNumAt (s : Str) : Option Nat :=
  match s with
  | '₹' :: t =>
    let d := (t.dropWhile isSpaceC).takeWhile Char.isDigit
    if d.isEmpty then none else some (digitsToNat d)
  | _ => none

/-- Anchored match of `KW\s+(\d+)` (bounding words under/below/within/upto). -/
def kwSpNumAt (kw : Str) (s : Str) : Option Nat :=
  if isPre kw s then
    let t := s.drop kw.length
    let sp := t.takeWhile isSpaceC
    if sp.isEmpty then none
    else
      let d := (t.drop sp.length).takeWhile Char.isDigit
      if d.isEmpty then none else some (digitsToNat d)
  else none

/-- Step 3 of the extractor: the eight keyword-anchored budget patterns,
tried in source order, first pattern with a match winning. -/
def budgetMatch (low : Str) : Option Nat :=
  firstSome
    [ searchFirst (kwColonNumAt [("budget").data, ("price").data]) low,
      searchFirst (numThenAt isBudgetUnit) low,
      searchFirst rupeeNumAt low,
      searchFirst (numThenAt rsBoundary) low,
      searchFirst (kwSpNumAt (("under").data)) low,
      searchFirst (kwSpNumAt (("below").data)) low,
      searchFirst (kwSpNumAt (("within").data)) low,
      searchFirst (kwSpNumAt (("upto").data)) low ]

/-- The `non_date_numbers` list of step 4: numeric tokens whose text is not
in the `date_numbers` set, converted with `int(...)`. -/
def nonDateNumbers (msg : Str) : List Nat :=
  ((findAllNumbers msg).filter (fun n => !((dateNums (msgLower msg)).contains n))).map digitsToNat

/-- Step 4 of the extractor: position-based filling of the still-empty
quantity/budget slots from the unclaimed numbers. -/
def positionalFill (q b : Option Nat) (nd : List Nat) : Option Nat × Option Nat :=
  if q.isNone || b.isNone then
    if 2 ≤ nd.length then
      ((if q.isNone then nd.get? 0 else q), (if b.isNone then nd.get? 1 else b))
    else if nd.length = 1 then
      if q.isNone then (nd.get? 0, b)
      else if b.isNone then (q, nd.get? 0)
      else (q, b)
    else (q, b)
  else (q, b)

/-- Quantity and budget produced by steps 2-4 for a message. -/
def extractQB (msg : Str) : Option Nat × Option Nat :=
  positionalFill (qtyMatch (msgLower msg)) (budgetMatch (msgLower msg)) (nonDateNumbers msg)

/-- The `known_cities` gazetteer, in source order. -/
def knownCities : List Str :=
  [ ("chennai").data, ("bangalore").data, ("bengaluru").data, ("coimbatore").data,
    ("madurai").data, ("hyderabad").data, ("kochi").data, ("mumbai").data,
    ("delhi").data, ("pune").data, ("mysore").data, ("trivandrum").data,
    ("vijayawada").data, ("erode").data, ("salem").data, ("tiruppur").data,
    ("guntur").data, ("vizag").data, ("tirunelveli").data, ("thanjavur").data,
    ("trichy").data, ("komarapalayam").data, ("karur").data, ("dindigul").data,
    ("vellore").data, ("hosur").data ]

/-- Python's `str.title()` restricted to the single lowercase words of the
gazetteer: capitalize the first character. -/
def titleWord : Str → Str
  | [] => []
  | c :: t => c.toUpper :: t

/-- Display form of a matched city, with the alias special cases of the source. -/
def cityDisplay (c : Str) : Str :=
  if c == ("bengaluru").data then ("Bangalore").data
  else if c == ("tiruchirappalli").data then ("Trichy").data
  else if c == ("visakhapatnam").data then ("Vizag").data
  else titleWord c

/-- Greeting/question words skipped by the fallback location heuristic. -/
def skipWords : List Str :=
  [ ("hello").data, ("hi").data, ("what").data, ("when").data, ("where").data ]

/-- Fallback location detection for short messages (at most 3 words). -/
def locationFallback (msg : Str) : Option Str :=
  let ws := splitWs (stripC msg)
  if ws.length ≤ 3 then
    ws.find? (fun w =>
      decide (3 < w.length) &&
      (match w with
        | c :: _ => c.isUpper
        | [] => false) &&
      w.all Char.isAlpha && !(skipWords.contains (toLowerList w)))
  else none

/-- Step 5 of the extractor: gazetteer lookup, then the fallback heuristic. -/
def locationDetect (msg : Str) : Option Str :=
  match knownCities.find? (fun c => containsSub c (msgLower msg)) with
  | some c => some (cityDisplay c)
  | none => locationFallback msg

/-- Step 6 of the extractor: preference tags, all matches collected. -/
def prefDetect (low : Str) : List Str :=
  (if containsSub (("eco").data) low || containsSub (("green").data) low
    then [("eco_friendly").data] else []) ++
  (if containsSub (("traditional").data) low || containsSub (("ethnic").data) low
    then [("traditional").data] else []) ++
  (if containsSub (("modern").data) low || containsSub (("contemporary").data) low
    then [("modern").data] else []) ++
  (if containsSub (("premium").data) low || containsSub (("luxury").data) low
    then [("premium").data] else [])

/-- The `ExtractedRequirements` record. -/
structure Extracted where
  quantity : Option Nat
  budget_per_piece : Option Nat
  timeline : Option Str
  location : Option Str
  preferences : List Str
  needs_confirmation : Bool
deriving Repr, DecidableEq, BEq

/-- The tool `extract_customer_requirements`, a pure function of the message:
steps 1-7 assembled.  `needs_confirmation` is set exactly when both quantity
and budget ended up populated and neither step 2 nor step 3 matched. -/
def extract (msg : Str) : Extracted :=
  { quantity := (extractQB msg).1
    budget_per_piece := (extractQB msg).2
    timeline := extractTimeline msg
    location := locationDetect msg
    preferences := prefDetect (msgLower msg)
    needs_confirmation :=
      (extractQB msg).1.isSome && (extractQB msg).2.isSome &&
      (qtyMatch (msgLower msg)).isNone && (budgetMatch (msgLower msg)).isNone }

/-- Quantity anchoring keyword substrings checked by the smart merge. -/
def qtyKwWords : List Str :=
  [ ("quantity").data, ("qty").data, ("pieces").data, ("pcs").data ]

/-- Budget anchoring keyword substrings checked by the smart merge. -/
def budgetKwWords : List Str :=
  [ ("budget").data, ("price").data, ("rs").data, ("rupees").data, ['₹'] ]

/-- Does the lowercased message contain a quantity anchoring keyword? -/
def hasQtyKeyword (msg : Str) : Bool :=
  qtyKwWords.any (fun w => containsSub w (msgLower msg))

/-- Does the lowercased message contain a budget anchoring keyword? -/
def hasBudgetKeyword (msg : Str) : Bool :=
  budgetKwWords.any (fun w => containsSub w (msgLower msg))

/-- Merge of one numeric field: a non-empty extracted value fills an empty
slot unconditionally and overwrites a filled slot only when the message has
the field's anchoring keyword. -/
def mergeField (curV extV : Option Nat) (kw : Bool) : Option Nat :=
  match extV with
  | none => curV
  | some v =>
    match curV with
    | none => some v
    | some c => if kw then some v else some c

/-- The smart merge of `requirement_extraction_node`: the confirmation flag
is always overwritten; quantity and budget are keyword-guarded; timeline,
location and preferences are last-write-wins on non-empty extractions. -/
def smartMerge (cur ext : Extracted) (lastMsg : Str) : Extracted :=
  { quantity := mergeField cur.quantity ext.quantity (hasQtyKeyword lastMsg)
    budget_per_piece :=
      mergeField cur.budget_per_piece ext.budget_per_piece (hasBudgetKeyword lastMsg)
    timeline :=
      match ext.timeline with
      | none => cur.timeline
      | some t => some t
    location :=
      match ext.location with
      | none => cur.location
      | some l => some l
    preferences := if ext.preferences.isEmpty then cur.preferences else ext.preferences
    needs_confirmation := ext.needs_confirmation }

/-- The dialogue stages of `BotState.current_stage`. -/
inductive Stage where
  | greeting
  | intent_classification
  | requirement_extraction
  | awaiting_confirmation
  | validation
  | product_search
  | recommendation
  | product_selection
  | order_confirmation
  | handoff
deriving Repr, DecidableEq, BEq

/-- General extraction branch of the node: extract, then merge into the
running record when one exists. -/
def generalExtraction (currentReq : Option Extracted) (lastMsg : Str) : Extracted :=
  match currentReq with
  | some req => smartMerge req (extract lastMsg) lastMsg
  | none => extract lastMsg

/-- `requirement_extraction_node`: a message that is exactly one integer and
an existing record trigger sequential filling (quantity first, then budget);
otherwise the general extraction runs.  The node always moves to validation. -/
def requirement_extraction_node (currentReq : Option Extracted) (lastMsg : Str) :
    Extracted × Stage :=
  if pyIsDigit (stripC lastMsg) then
    match currentReq with
    | some req =>
      if req.quantity.isNone then
        ({req with quantity := some (digitsToNat (stripC lastMsg))}, Stage.validation)
      else if req.budget_per_piece.isNone then
        ({req with budget_per_piece := some (digitsToNat (stripC lastMsg))}, Stage.validation)
      else (generalExtraction currentReq lastMsg, Stage.validation)
    | none => (generalExtraction currentReq lastMsg, Stage.validation)
  else (generalExtraction currentReq lastMsg, Stage.validation)

/-- Handoff reason tags set by the controller. -/
inductive HReason where
  | image_sent
  | quick_price_query
  | unhandleable_query
  | llm_classification
  | no_products
  | products_shown
  | bot_error
deriving Repr, DecidableEq, BEq

/-- Urgency tiers of the timeline resolver. -/
inductive Urgency where
  | low
  | medium
  | high
  | critical
deriving Repr, DecidableEq, BEq

/-- One product row as returned by `search_matching_products`. -/
structure MatchedProduct where
  name : Str
  price : Nat
  category : Str
  min_order : Nat
  image_url : Str
  relevance_score : Int
deriving Repr, DecidableEq, BEq

/-- The `ValidationResult` produced by the validation node. -/
structure ValidationR where
  is_valid : Bool
  delivery_day : Int
  urgency_level : Urgency
deriving Repr, DecidableEq, BEq

/-- The conversation state of `BotState` relevant to routing: the human
messages, the stage (absent for a brand-new conversation, as `state.get`
returns `None`) and the accumulated records and flags. -/
structure CState where
  userMessages : List Str
  current_stage : Option Stage
  needs_human_handoff : Bool
  has_greeted : Bool
  handoff_reason : Option HReason
  requirements : Option Extracted
  recommended_products : Option (List MatchedProduct)
  selected_product : Option MatchedProduct
  validation : Option ValidationR
deriving Repr, DecidableEq, BEq

/-- The last human message of the conversation, if any. -/
def lastUser (s : CState) : Option Str := s.userMessages.getLast?

/-- Apply the handoff update dict of the classifier to the state. -/
def handoffUpd (s : CState) (r : HReason) : CState :=
  {s with current_stage := some Stage.handoff, needs_human_handoff := true,
          handoff_reason := some r}

/-- The image-attachment marker. -/
def imageMarker : Str := ("[IMAGE_SENT]").data

/-- The `quick_price_queries` phrase list of the intent classifier. -/
def classifierQuickList : List Str :=
  [ ("pp").data, ("price please").data, ("price pls").data, ("rate pls").data,
    ("rate please").data, ("available?").data, ("stock?").data,
    ("available").data, ("in stock").data ]

/-- Short quick-price-query test of the classifier: raw length at most 20
characters and any phrase occurring as a substring of the lowercased message. -/
def isQuickQuery (lastMsg low : Str) : Bool :=
  decide (lastMsg.length ≤ 20) && classifierQuickList.any (fun q => containsSub q low)

/-- Affirmative replies accepted while awaiting confirmation. -/
def affirmatives : List Str :=
  [ ("yes").data, ("y").data, ("ok").data, ("correct").data,
    ("confirm").data, ("right").data, ("hai").data ]

/-- The greeting keywords recognized as exact messages. -/
def greetingKeywords : List Str :=
  [ ("hello").data, ("hi").data, ("hey").data, ("start").data,
    ("new").data, ("hai").data ]

/-- Existence test for the classifier date shape `\d{1,2}[/\-]\d{1,2}`: a
digit, a slash or hyphen, and a digit in consecutive positions (equivalent
to the pattern having a match, since each group may be a single digit). -/
def hasDigitSepDigit : Str → Bool
  | a :: b :: c :: t =>
    (a.isDigit && (b = '/' || b = '-') && c.isDigit) || hasDigitSepDigit (b :: c :: t)
  | _ => false

/-- The classifier's date/timeline shape test (its three `date_patterns`). -/
def classifierDateish (low : Str) : Bool :=
  monthsL.any (fun m => containsSub m low) ||
  hasDigitSepDigit low ||
  containsSub (("tomorrow").data) low || containsSub (("today").data) low ||
  containsSub (("next week").data) low || containsSub (("asap").data) low

/-- The `unhandleable_patterns` keyword list. -/
def unhandleablePatterns : List Str :=
  [ ("refund").data, ("cancel").data, ("complaint").data, ("issue").data,
    ("problem").data, ("shipping cost").data, ("delivery charge").data,
    ("payment method").data, ("customization").data, ("customize").data,
    ("design change").data, ("bulk discount").data, ("wholesale").data ]

/-- Body of the intent classifier once a last human message exists.  The
branches follow the source's priority order; `none` stands for the final
delegation to the external language-model classifier. -/
def classifyMsg (s : CState) (lastMsg : Str) : Option CState :=
  let low := stripC (toLowerList lastMsg)
  if containsSub imageMarker lastMsg then
    some (handoffUpd s HReason.image_sent)
  else if isQuickQuery lastMsg low then
    some (handoffUpd s HReason.quick_price_query)
  else if s.current_stage = some Stage.awaiting_confirmation then
    if affirmatives.contains low then
      some {s with current_stage := some Stage.validation,
                   requirements := s.requirements.map
                     (fun r => {r with needs_confirmation := false})}
    else some {s with current_stage := some Stage.requirement_extraction}
  else if greetingKeywords.contains low then
    if s.current_stage = some Stage.handoff then
      some {s with current_stage := some Stage.requirement_extraction,
                   requirements := none, recommended_products := none,
                   selected_product := none, validation := none,
                   has_greeted := true, needs_human_handoff := false,
                   handoff_reason := none}
    else if s.current_stage = some Stage.product_selection ∨
            s.current_stage = some Stage.order_confirmation then
      some {s with current_stage := some Stage.requirement_extraction,
                   requirements := none, recommended_products := none,
                   selected_product := none, validation := none,
                   has_greeted := true}
    else some {s with current_stage := some Stage.requirement_extraction}
  else if pyIsDigit low then
    some {s with current_stage := some Stage.requirement_extraction}
  else if (splitWs low).length = 1 ∧ 2 < low.length then
    some {s with current_stage := some Stage.requirement_extraction}
  else if classifierDateish low then
    some {s with current_stage := some Stage.requirement_extraction}
  else if unhandleablePatterns.any (fun p => containsSub p low) then
    some (handoffUpd s HReason.unhandleable_query)
  else none

/-- `intent_classifier_node`: an already-handed-off conversation receives the
empty update (the state is unchanged and the bot stays silent); otherwise the
last human message is classified.  `none` models the external LLM fallback. -/
def intent_classifier_node (s : CState) : Option CState :=
  if s.needs_human_handoff then some s
  else
    match lastUser s with
    | none => some s
    | some lastMsg => classifyMsg s lastMsg

/-- Result of the conditional entry point. -/
inductive Route where
  | greeting
  | classify_intent
deriving Repr, DecidableEq, BEq

/-- The `quick_queries` phrase list of the entry router. -/
def entryQuickList : List Str :=
  [ ("pp").data, ("price please").data, ("price pls").data, ("available?").data,
    ("stock?").data, ("available").data, ("in stock").data,
    ("rate pls").data, ("rate please").data ]

/-- `entry_router`: image markers and quick queries route to the classifier
before the greeting check, so they fire even for a brand-new conversation. -/
def entry_router (s : CState) : Route :=
  match lastUser s with
  | some lastMsg =>
    let low := stripC (toLowerList lastMsg)
    if containsSub imageMarker lastMsg then Route.classify_intent
    else if decide (lastMsg.length ≤ 20) &&
            entryQuickList.any (fun q => containsSub q low) then Route.classify_intent
    else if !s.has_greeted then Route.greeting
    else Route.classify_intent
  | none => if !s.has_greeted then Route.greeting else Route.classify_intent

/-- Result of the post-intent router. -/
inductive PostRoute where
  | toExtract
  | toEnd
deriving Repr, DecidableEq, BEq

/-- `post_intent_router`: a handoff stage or flag ends the turn before the
requirement-extraction node can run. -/
def post_intent_router (s : CState) : PostRoute :=
  if s.current_stage = some Stage.handoff ∨ s.needs_human_handoff then PostRoute.toEnd
  else PostRoute.toExtract

/-- The `timeline_config` table of predefined codes. -/
def timelineConfig : List (Str × Nat × Urgency) :=
  [ (("asap").data, 1, Urgency.critical), (("today").data, 0, Urgency.critical),
    (("tomorrow").data, 1, Urgency.high), (("this_week").data, 5, Urgency.medium),
    (("next_week").data, 7, Urgency.medium), (("two_weeks").data, 14, Urgency.low),
    (("one_month").data, 30, Urgency.low) ]

/-- Lookup of `timeline.lower()` in the predefined code table. -/
def lookupTimeline (low : Str) : Option (Nat × Urgency) :=
  (timelineConfig.find? (fun e => e.1 == low)).map (fun e => e.2)

/-- Rush orders are the critical and high tiers. -/
def isRush (u : Urgency) : Bool :=
  u == Urgency.critical || u == Urgency.high

/-- Urgency from days remaining (thresholds 2, 7, 14). -/
def urgencyFromDays (rem : Int) : Urgency :=
  if rem ≤ 2 then Urgency.critical
  else if rem ≤ 7 then Urgency.high
  else if rem ≤ 14 then Urgency.medium
  else Urgency.low

/-- Result record of the timeline resolver. -/
structure TimelineResult where
  delivery_day : Int
  days_remaining : Int
  urgency_level : Urgency
  is_rush_order : Bool
deriving Repr, DecidableEq, BEq

/-- The tool `calculate_timeline_urgency`.  Dates are modelled as absolute
day counts; `parse` models the external `dateutil` fuzzy parser (returning
the parsed date or failing) and `yearLen` the `replace(year + 1)` roll
forward applied when the parsed date lies in the past.  A failed parse of a
non-code timeline falls back to 7 days at medium urgency. -/
def calculate_timeline_urgency (parse : Str → Option Int) (today yearLen : Int)
    (timeline : Str) : TimelineResult :=
  match lookupTimeline (toLowerList timeline) with
  | some (d, u) =>
    { delivery_day := today + (d : Int), days_remaining := (d : Int),
      urgency_level := u, is_rush_order := isRush u }
  | none =>
    match parse timeline with
    | some p0 =>
      let p := if p0 < today then p0 + yearLen else p0
      { delivery_day := p, days_remaining := p - today,
        urgency_level := urgencyFromDays (p - today),
        is_rush_order := isRush (urgencyFromDays (p - today)) }
    | none =>
      { delivery_day := today + 7, days_remaining := 7,
        urgency_level := Urgency.medium, is_rush_order := isRush Urgency.medium }

/-- Python's `int(...)` on a rational: truncation toward zero. -/
def truncQ (x : ℚ) : Int := if 0 ≤ x then ⌊x⌋ else -⌊-x⌋

/-- The relevance score of `search_matching_products` for one product whose
applicable price passed the budget filter: sequential bonuses for preference
matches and the price-competitiveness term `int((1 - price/budget) * 20)`. -/
def relevanceScore (prefs : List Str) (category : Str) (price budget : Nat) : Int :=
  let score0 : Int := 100
  let score1 : Int :=
    if prefs.contains (("eco_friendly").data) && category == ("Eco-Friendly").data
    then score0 + 30 else score0
  let score2 : Int :=
    if prefs.contains (("traditional").data) &&
       (category == ("Traditional").data || category == ("Premium Traditional").data)
    then score1 + 25 else score1
  let score3 : Int :=
    if prefs.contains (("premium").data) && containsSub (("Premium").data) category
    then score2 + 20 else score2
  score3 + truncQ ((1 - (price : ℚ) / (budget : ℚ)) * 20)

/-- Example message of the spec: four requirement lines in one message. -/
def ex1msg : Str := ("500\n45\nFeb 22\nChennai").data

/-- A message with two bare numbers and no keywords. -/
def w1msg : Str := ("50 100").data

/-- First-turn message anchoring quantity with a unit word. -/
def c4msg1 : Str := ("100 pieces").data

/-- Requirement record after the first turn of the overwrite scenario. -/
def c4req1 : Extracted := (requirement_extraction_node none c4msg1).1

/-- Second-turn message: contains the substring pieces but no anchored number. -/
def c4msg2 : Str := ("pieces 50 60").data

/-- Requirement record after the second turn of the overwrite scenario. -/
def c4req2 : Extracted := (requirement_extraction_node (some c4req1) c4msg2).1

/-- A message whose keyword-anchored quantity number is reused positionally. -/
def c5msg : Str := ("60 need 50").data

/-- An existing record with quantity filled and budget empty. -/
def req500 : Extracted :=
  { quantity := some 500, budget_per_piece := none, timeline := none,
    location := none, preferences := [], needs_confirmation := false }

/-- A conversation sitting in the handoff stage with the handoff flag set. -/
def s3state : CState :=
  { userMessages := [("hello").data], current_stage := some Stage.handoff,
    needs_human_handoff := true, has_greeted := true,
    handoff_reason := some HReason.products_shown,
    requirements := some { quantity := some 50, budget_per_piece := some 60,
                           timeline := none, location := none, preferences := [],
                           needs_confirmation := false },
    recommended_products := some [], selected_product := none, validation := none }

/-- A brand-new, never-greeted conversation whose only message is `msg`. -/
def freshState (msg : Str) : CState :=
  { userMessages := [msg], current_stage := none, needs_human_handoff := false,
    has_greeted := false, handoff_reason := none, requirements := none,
    recommended_products := none, selected_product := none, validation := none }

/-- A short product request that merely contains pp inside the word apples. -/
def msg10 : Str := ("need 50 red apples").data

/-- A greeted conversation about to classify `msg10`. -/
def s10state : CState :=
  { userMessages := [msg10], current_stage := some Stage.intent_classification,
    needs_human_handoff := false, has_greeted := true, handoff_reason := none,
    requirements := none, recommended_products := none, selected_product := none,
    validation := none }

/-- C1: for every message whose non-date numeric tokens number at least two
and on which neither the quantity nor the budget keyword patterns match, the
extractor assigns the first unclaimed number to quantity and the second to
budget, and sets `needs_confirmation`. -/
theorem extract_two_bare_numbers (msg : Str) (a b : Nat) (rest : List Nat)
    (hq : qtyMatch (msgLower msg) = none) (hb : budgetMatch (msgLower msg) = none)
    (hnd : nonDateNumbers msg = a :: b :: rest) :
    (extract msg).quantity = some a ∧ (extract msg).budget_per_piece = some b ∧
    (extract msg).needs_confirmation = true := by
  have hqb : extractQB msg = (some a, some b) := by
    unfold extractQB
    rw [hq, hb, hnd]
    simp [positionalFill, Nat.le_add_left]
  refine ⟨?_, ?_, ?_⟩
  · show (extractQB msg).1 = some a
    rw [hqb]
  · show (extractQB msg).2 = some b
    rw [hqb]
  · show ((extractQB msg).1.isSome && (extractQB msg).2.isSome &&
      (qtyMatch (msgLower msg)).isNone && (budgetMatch (msgLower msg)).isNone) = true
    rw [hqb, hq, hb]
    rfl

/-- Witness for C1 at the message with the two bare numbers 50 and 100. -/
theorem extract_two_bare_numbers_witness :
    (extract w1msg).quantity = some 50 ∧ (extract w1msg).budget_per_piece = some 100 ∧
    (extract w1msg).needs_confirmation = true :=
  extract_two_bare_numbers w1msg 50 100 [] (by decide) (by decide) (by decide)

/-- C2 counterexample: on the spec's own example message the stored timeline
is not the verbatim original-cased substring Feb 22. -/
theorem timeline_not_verbatim_counterexample :
    (extract ex1msg).timeline ≠ some (("Feb 22").data) := by decide

/-- C2 amended: the timeline is the matched substring of the lowercased
message of the last date-pattern match processed; on the example message the
digits-before-month pattern also matches across the newline and is processed
after the month-day match, so the stored timeline is the lowercased 45-feb
text, not Feb 22. -/
theorem timeline_lowercased_last_match :
    (extract ex1msg).timeline = some (("45\nfeb").data) := by decide

/-- C3: with the handoff flag set the classifier returns the empty update on
the greeting hello, so the conversation is not reset and stays in handoff,
contradicting the fresh-start reset the spec (and the code's own dead reset
branch) describe. -/
theorem handoff_greeting_stays_silent :
    greetingKeywords.contains (stripC (toLowerList (("hello").data))) = true ∧
    intent_classifier_node s3state = some s3state := by
  exact ⟨by decide, by decide⟩

/-- C4 counterexample: quantity 100 is keyword-anchored in turn one, the
second message anchors nothing (both keyword matchers fail, so its numbers
are purely positional), yet the merge overwrites quantity with 50 because the
message happens to contain the substring pieces. -/
theorem anchored_value_overwritten_counterexample :
    qtyMatch (msgLower c4msg1) = some 100 ∧ c4req1.quantity = some 100 ∧
    qtyMatch (msgLower c4msg2) = none ∧ budgetMatch (msgLower c4msg2) = none ∧
    c4req2.quantity = some 50 := by decide

/-- C4 amended: a filled quantity (resp. budget) is overwritten only if the
message contains one of that field's anchoring keyword substrings; when the
message lacks them all, the existing value always survives the merge. -/
theorem merge_keyword_protection (cur ext : Extracted) (msg : Str) :
    (∀ q, cur.quantity = some q → hasQtyKeyword msg = false →
      (smartMerge cur ext msg).quantity = some q) ∧
    (∀ b, cur.budget_per_piece = some b → hasBudgetKeyword msg = false →
      (smartMerge cur ext msg).budget_per_piece = some b) := by
  constructor
  · intro q hc hk
    cases hx : ext.quantity <;> simp [smartMerge, mergeField, hx, hc, hk]
  · intro b hc hk
    cases hx : ext.budget_per_piece <;> simp [smartMerge, mergeField, hx, hc, hk]

/-- Witness for the amended C4: without the keyword substrings the anchored
quantity 100 survives a merge with a conflicting extraction. -/
theorem merge_keyword_protection_witness :
    (smartMerge c4req1 (extract (("50 60").data)) (("50 60").data)).quantity = some 100 :=
  (merge_keyword_protection c4req1 (extract (("50 60").data)) (("50 60").data)).1
    100 (by decide) (by decide)

/-- C5 counterexample: in 60-need-50 the keyword-anchored quantity consumes
the token 50, budget matches no keyword, and the positional fallback reuses
that same consumed 50 for budget. -/
theorem positional_reuse_counterexample :
    qtyMatch (msgLower c5msg) = some 50 ∧ budgetMatch (msgLower c5msg) = none ∧
    nonDateNumbers c5msg = [60, 50] ∧
    (extract c5msg).quantity = some 50 ∧ (extract c5msg).budget_per_piece = some 50 := by
  decide

/-- C5 amended: the positional fallback skips only numbers claimed by date
detection; with a keyword-anchored quantity and no budget keyword it always
takes the second unclaimed number for budget, even when that token is the
very number the quantity match consumed. -/
theorem positional_skips_only_date_numbers (msg : Str) (q a b : Nat) (rest : List Nat)
    (hq : qtyMatch (msgLower msg) = some q) (hb : budgetMatch (msgLower msg) = none)
    (hnd : nonDateNumbers msg = a :: b :: rest) :
    (extract msg).quantity = some q ∧ (extract msg).budget_per_piece = some b := by
  have hqb : extractQB msg = (some q, some b) := by
    unfold extractQB
    rw [hq, hb, hnd]
    simp [positionalFill, Nat.le_add_left]
  exact ⟨by show (extractQB msg).1 = some q; rw [hqb],
         by show (extractQB msg).2 = some b; rw [hqb]⟩

/-- Witness for the amended C5 at the reuse message. -/
theorem positional_skips_only_date_numbers_witness :
    (extract c5msg).quantity = some 50 ∧ (extract c5msg).budget_per_piece = some 50 :=
  positional_skips_only_date_numbers c5msg 50 60 50 [] (by decide) (by decide) (by decide)

/-- C6: a message that is exactly one integer, with an existing record, fills
the first empty slot in the order quantity then budget (never timeline), and
falls through to the general extraction when both are already set. -/
theorem single_number_sequential_fill (req : Extracted) (msg : Str)
    (h : pyIsDigit (stripC msg) = true) :
    (req.quantity = none →
      requirement_extraction_node (some req) msg =
        ({req with quantity := some (digitsToNat (stripC msg))}, Stage.validation)) ∧
    (req.quantity.isSome = true → req.budget_per_piece = none →
      requirement_extraction_node (some req) msg =
        ({req with budget_per_piece := some (digitsToNat (stripC msg))}, Stage.validation)) ∧
    (req.quantity.isSome = true → req.budget_per_piece.isSome = true →
      requirement_extraction_node (some req) msg =
        (smartMerge req (extract msg) msg, Stage.validation)) := by
  refine ⟨?_, ?_, ?_⟩
  · intro hq
    simp [requirement_extraction_node, h, hq]
  · intro hq hb
    obtain ⟨q, hx⟩ := Option.isSome_iff_exists.mp hq
    simp [requirement_extraction_node, h, hx, hb]
  · intro hq hb
    obtain ⟨q, hx⟩ := Option.isSome_iff_exists.mp hq
    obtain ⟨b, hy⟩ := Option.isSome_iff_exists.mp hb
    simp [requirement_extraction_node, h, hx, hy, generalExtraction]

/-- Witness for C6: with quantity 500 already set, the bare message 45 fills
budget with 45, bypassing the general extractor. -/
theorem single_number_sequential_fill_witness :
    requirement_extraction_node (some req500) (("45").data) =
      ({req500 with budget_per_piece := some 45}, Stage.validation) :=
  (single_number_sequential_fill req500 (("45").data) (by decide)).2.1
    (by decide) (by decide)

/-- C7: a message containing the image marker routes past the greeting node
even for a brand-new conversation, and the classifier forces handoff with the
image-sent reason; the post-intent router then ends the turn. -/
theorem image_marker_forces_handoff (msg : Str)
    (h : containsSub imageMarker msg = true) :
    entry_router (freshState msg) = Route.classify_intent ∧
    intent_classifier_node (freshState msg) =
      some (handoffUpd (freshState msg) HReason.image_sent) ∧
    post_intent_router (handoffUpd (freshState msg) HReason.image_sent) =
      PostRoute.toEnd := by
  have hl : lastUser (freshState msg) = some msg := rfl
  refine ⟨?_, ?_, ?_⟩
  · simp [entry_router, hl, h]
  · have h0 : intent_classifier_node (freshState msg) = classifyMsg (freshState msg) msg := rfl
    rw [h0]
    simp [classifyMsg, h]
  · simp [post_intent_router, handoffUpd]

/-- Witness for C7 at the bare image-marker message. -/
theorem image_marker_forces_handoff_witness :
    entry_router (freshState imageMarker) = Route.classify_intent ∧
    intent_classifier_node (freshState imageMarker) =
      some (handoffUpd (freshState imageMarker) HReason.image_sent) ∧
    post_intent_router (handoffUpd (freshState imageMarker) HReason.image_sent) =
      PostRoute.toEnd :=
  image_marker_forces_handoff imageMarker (by decide)

/-- C8: when the timeline is neither a canonical code nor parseable, the
resolver returns the default of seven days at medium urgency (and is total,
so no timeline input fails the turn). -/
theorem timeline_fallback_default (parse : Str → Option Int) (today yearLen : Int)
    (timeline : Str) (h1 : lookupTimeline (toLowerList timeline) = none)
    (h2 : parse timeline = none) :
    calculate_timeline_urgency parse today yearLen timeline =
      { delivery_day := today + 7, days_remaining := 7,
        urgency_level := Urgency.medium, is_rush_order := false } := by
  unfold calculate_timeline_urgency
  rw [h1, h2]
  rfl

/-- Witness for C8 on an unparseable timeline string. -/
theorem timeline_fallback_default_witness :
    calculate_timeline_urgency (fun _ => none) 1000 365 (("sometime soon").data) =
      { delivery_day := 1000 + 7, days_remaining := 7,
        urgency_level := Urgency.medium, is_rush_order := false } :=
  timeline_fallback_default (fun _ => none) 1000 365 (("sometime soon").data)
    (by decide) rfl

/-- C9 counterexample: at price 1 and budget ceiling 8 the code's score is
117 (truncation of 17.5) while the claimed formula with rounding gives 118. -/
theorem relevance_score_round_counterexample :
    relevanceScore [] (("Glassware").data) 1 8 ≠
      100 + round ((1 - (1 : ℚ) / 8) * 20) := by
  have hc : relevanceScore [] (("Glassware").data) 1 8 =
      100 + truncQ ((1 - ((1 : Nat) : ℚ) / ((8 : Nat) : ℚ)) * 20) := rfl
  have hx : ((1 - ((1 : Nat) : ℚ) / ((8 : Nat) : ℚ)) * 20) = 35 / 2 := by norm_num
  have ht : truncQ (35 / 2 : ℚ) = 17 := by
    have h0 : (0 : ℚ) ≤ 35 / 2 := by norm_num
    simp only [truncQ, if_pos h0]
    rw [Int.floor_eq_iff]
    norm_num
  have hr : round ((1 - (1 : ℚ) / 8) * 20) = 18 := by
    have hy : ((1 - (1 : ℚ) / 8) * 20) = 35 / 2 := by norm_num
    rw [hy, round_eq, Int.floor_eq_iff]
    norm_num
  rw [hc, hx, ht, hr]
  omega

/-- C9 amended: the relevance score is 100 plus the three preference bonuses
plus the truncation toward zero (Python int) of the price-competitiveness
term, not its rounding. -/
theorem relevance_score_truncation_formula (prefs : List Str) (category : Str)
    (price budget : Nat) :
    relevanceScore prefs category price budget =
      100 +
      (if prefs.contains (("eco_friendly").data) &&
          category == ("Eco-Friendly").data then (30 : Int) else 0) +
      (if prefs.contains (("traditional").data) &&
          (category == ("Traditional").data ||
           category == ("Premium Traditional").data) then (25 : Int) else 0) +
      (if prefs.contains (("premium").data) &&
          containsSub (("Premium").data) category then (20 : Int) else 0) +
      truncQ ((1 - (price : ℚ) / (budget : ℚ)) * 20) := by
  unfold relevanceScore
  split_ifs <;> ring

/-- C10: the short message need-50-red-apples contains pp only inside the
word apples, yet the classifier forces handoff with the quick-price-query
reason and the post-intent router ends the turn before requirement
extraction can run. -/
theorem quick_query_substring_handoff :
    msg10.length = 18 ∧
    containsSub (("pp").data) (stripC (toLowerList msg10)) = true ∧
    entry_router s10state = Route.classify_intent ∧
    intent_classifier_node s10state =
      some (handoffUpd s10state HReason.quick_price_query) ∧
    post_intent_router (handoffUpd s10state HReason.quick_price_query) =
      PostRoute.toEnd := by
  decide
